import Mathlib

/-!
Shallow embedding of the OxyGent browser management console
(`src/oxygent/web/management/js/system.js` and the agents/workflows script)
together with theorems settling the specification claims about it.

Modelling conventions:
* The HTTP transport is a collaborator: each embedded operation takes the
  outcome of its network call as an `Except String _` argument, where the
  `String` is the message the wrapper derives from the failure
  (`errorData.detail || 'API request failed'` or the transport error).
* DOM side effects that the claims talk about (toast messages, inline
  alerts, network calls, store reloads) are recorded as an explicit event
  trace; pure rendering is not modelled.
* JavaScript truthiness on optional strings/numbers is modelled explicitly
  (`none` and `some ""` are falsy; a numeric `0` is falsy).
-/

namespace OxyGent

/-- Toast severity, as accepted by `showToast(message, type)`. -/
inductive Severity
  | success
  | error
  | warning
deriving DecidableEq

/-- Observable events of one user-triggered operation, in order:
outbound network calls, toast messages and blocking `alert` dialogs. -/
inductive Ev
  | net (method : String) (path : String)
  | toast (msg : String) (sev : Severity)
  | alertBox (msg : String)
deriving DecidableEq

/-- `apiRequest(endpoint, method, data)` from `system.js`: issues the call
and, on failure, shows one error toast with the derived message and
re-raises the failure to the caller (`showToast(error.message, 'error');
throw error`).  The pair returned is (events, re-raised outcome). -/
def apiRequestRun {α : Type} (method path : String) (outcome : Except String α) :
    List Ev × Except String α :=
  match outcome with
  | .ok a => ([Ev.net method path], .ok a)
  | .error m => ([Ev.net method path, Ev.toast m Severity.error], .error m)

/-- The message `apiRequest` derives from a non-success response body:
`errorData.detail || 'API request failed'` (JS `||`, so an empty detail
also falls back to the generic message). -/
def apiErrorMessage (detail : Option String) : String :=
  match detail with
  | some d => if d = "" then "API request failed" else d
  | none => "API request failed"

/-- An agent record as the backend returns it.  Fields the scripts treat as
possibly absent are `Option`s; `none` models a missing JSON key. -/
structure Agent where
  id : String
  name : String
  agent_type : String
  description : Option String
  is_master : Bool
  tools : Option (List String)
  sub_agents : Option (List String)
  llm_model : Option String
  additional_prompt : Option String
  timeout : Option Nat
  trust_mode : Option Bool
  status : String
deriving DecidableEq

/-- A tool record. -/
structure Tool where
  id : String
  name : String
  tool_type : String
  description : Option String
  status : String
deriving DecidableEq

/-- The fixed demonstration dataset `loadAgents` substitutes in its catch
block ("For development, use mock data if API is not available"). -/
def mockAgents : List Agent :=
  [ { id := "1", name := "time_agent", agent_type := "react"
      description := some "An agent that provides time-related information"
      is_master := true, tools := none, sub_agents := none, llm_model := none
      additional_prompt := none, timeout := none, trust_mode := none
      status := "active" }
  , { id := "2", name := "weather_agent", agent_type := "chat"
      description := some "An agent that provides weather information"
      is_master := false, tools := none, sub_agents := none, llm_model := none
      additional_prompt := none, timeout := none, trust_mode := none
      status := "active" }
  , { id := "3", name := "calculator_agent", agent_type := "local"
      description := some "An agent that performs calculations"
      is_master := false, tools := none, sub_agents := none, llm_model := none
      additional_prompt := none, timeout := none, trust_mode := none
      status := "inactive" } ]

/-- The fixed demonstration dataset `loadTools` substitutes in its catch
block. -/
def mockTools : List Tool :=
  [ { id := "1", name := "time_tools", tool_type := "function"
      description := some "Tools for time-related operations", status := "active" }
  , { id := "2", name := "weather_tools", tool_type := "api"
      description := some "Tools for weather information", status := "active" }
  , { id := "3", name := "calculator_tools", tool_type := "function"
      description := some "Tools for mathematical calculations", status := "active" }
  , { id := "4", name := "browser_tools", tool_type := "mcp"
      description := some "Tools for browser automation", status := "inactive" } ]

/-- `loadAgents()`: `agents = await apiRequest('/agents'); render` with the
catch block `agents = [...mock...]; render`.  Takes the store contents
before the call and returns (events, store contents after).  Note the
prior contents are never consulted: on failure the collection is always
replaced by `mockAgents`. -/
def loadAgentsRun (st : List Agent) (outcome : Except String (List Agent)) :
    List Ev × List Agent :=
  let (evs, res) := apiRequestRun "GET" "/agents" outcome
  match res with
  | .ok l => (evs, l)
  | .error _ => (evs, mockAgents)

/-- `loadTools()`, same shape as `loadAgents`. -/
def loadToolsRun (st : List Tool) (outcome : Except String (List Tool)) :
    List Ev × List Tool :=
  let (evs, res) := apiRequestRun "GET" "/tools" outcome
  match res with
  | .ok l => (evs, l)
  | .error _ => (evs, mockTools)

/-- Overlapping `loadAgents` calls.  Each list entry is one call resolving,
in resolution order; the `Nat` is the call's start position (0 = started
first).  Because `loadAgents` simply assigns `agents = ...` when its own
call resolves, the store after a sequence of resolutions is the fold of
the individual assignments, regardless of start order. -/
def runLoadResolutions (init : List Agent)
    (resolutions : List (Nat × Except String (List Agent))) : List Agent :=
  resolutions.foldl (fun st r => (loadAgentsRun st r.2).2) init

/-- JS string truthiness for an optional field: `undefined` and `''` are
falsy. -/
def jsTruthyStr (s : Option String) : Bool :=
  match s with
  | some d => d ≠ ""
  | none => false

/-- JS `a.includes(b)`: `b` occurs as a contiguous substring of `a`. -/
def jsIncludes (s pat : String) : Bool :=
  decide (pat.data <:+: s.data)

/-- The search predicate of `filterAgents`:
`agent.name.toLowerCase().includes(searchTerm) || (agent.description &&
agent.description.toLowerCase().includes(searchTerm))` where `searchTerm`
is the lower-cased search box value. -/
def agentSearchMatch (a : Agent) (term : String) : Bool :=
  jsIncludes a.name.toLower term ||
    (match a.description with
     | some d => d ≠ "" && jsIncludes d.toLower term
     | none => false)

/-- The whole `filterAgents` predicate: search match AND
(`typeFilter === '' || agent.agent_type === typeFilter`). -/
def agentMatches (a : Agent) (searchInput typeFilter : String) : Bool :=
  agentSearchMatch a searchInput.toLower &&
    (typeFilter = "" || a.agent_type = typeFilter)

/-- `filterAgents()` restricted to its pure core: the filtered list handed
to `renderFilteredAgents`. -/
def filterAgents (l : List Agent) (searchInput typeFilter : String) : List Agent :=
  l.filter (fun a => agentMatches a searchInput typeFilter)

/-- The search predicate of `filterTools`. -/
def toolSearchMatch (t : Tool) (term : String) : Bool :=
  jsIncludes t.name.toLower term ||
    (match t.description with
     | some d => d ≠ "" && jsIncludes d.toLower term
     | none => false)

/-- The whole `filterTools` predicate. -/
def toolMatches (t : Tool) (searchInput typeFilter : String) : Bool :=
  toolSearchMatch t searchInput.toLower &&
    (typeFilter = "" || t.tool_type = typeFilter)

/-- `filterTools()` restricted to its pure core. -/
def filterTools (l : List Tool) (searchInput typeFilter : String) : List Tool :=
  l.filter (fun t => toolMatches t searchInput typeFilter)

/-! ## Edit session: the agent modal form -/

/-- The agent modal's form fields.  A multi-select is its list of options
in DOM order, each paired with its selected flag; a single select carries
its option values and its current value.  `type_options` are the static
options of the `agent-type` select from the page markup. -/
structure AgentForm where
  type_options : List String
  name : String
  agent_type : String
  description : String
  is_master : Bool
  tools : List (String × Bool)
  sub_agents : List (String × Bool)
  llm_options : List String
  llm_model : String
  additional_prompt : String
  timeout : String
  trust_mode : Bool
deriving DecidableEq

/-- DOM semantics of assigning `select.value = v`: if some option carries
value `v` it becomes selected, otherwise no option is selected and the
select's value reads back as the empty string. -/
def setSelectValue (opts : List String) (v : String) : String :=
  if opts.contains v then v else ""

/-- `Array.from(select.options).forEach(o => o.selected = ids.includes(o.value))`:
every option's selected flag is overwritten with membership in `ids`. -/
def markSelected (opts : List (String × Bool)) (ids : List String) :
    List (String × Bool) :=
  opts.map (fun q => (q.1, ids.contains q.1))

/-- `Array.from(select.selectedOptions).map(o => o.value)`: the values of
the selected options, in DOM option order. -/
def selectedValues (opts : List (String × Bool)) : List String :=
  (opts.filter (fun q => q.2)).map (fun q => q.1)

/-- `openAgentModal()` composed with the three option loads it triggers
(`loadToolsForAgent`, `loadAgentsForSubAgents`, `loadLlmModels`): resets
every form field to its markup default (texts empty, checkboxes false,
the type select back to its first option) and rebuilds the tools,
sub-agent and LLM option lists, none selected, a freshly filled single
select reading as its first option.  The previous form state `prev` is
consulted only for the static type options. -/
def openAgentModal (prev : AgentForm) (toolOpts subAgentOpts llmOpts : List String) :
    AgentForm :=
  { type_options := prev.type_options
    name := ""
    agent_type := prev.type_options.headD ""
    description := ""
    is_master := false
    tools := toolOpts.map (fun v => (v, false))
    sub_agents := subAgentOpts.map (fun v => (v, false))
    llm_options := llmOpts
    llm_model := llmOpts.headD ""
    additional_prompt := ""
    timeout := ""
    trust_mode := false }

/-- Decimal digit characters of a nonnegative JS number, most significant
first: the string the DOM stores when a number is assigned to an input's
`value`. -/
def jsNumToStr (n : Nat) : String :=
  if n = 0 then "0"
  else ⟨((Nat.digits 10 n).reverse.map Nat.digitChar)⟩

/-- Numeric value of a decimal digit character. -/
def digitVal (c : Char) : Nat := c.toNat - 48

/-- Value of a most-significant-first digit-character list. -/
def decodeDigits (ds : List Char) : Nat :=
  ds.foldl (fun acc c => acc * 10 + digitVal c) 0

/-- Leading run of decimal digits of a character list, or `none` when
there is none at all. -/
def parseLeadDigits (l : List Char) : Option Nat :=
  if l.takeWhile Char.isDigit = [] then none
  else some (decodeDigits (l.takeWhile Char.isDigit))

/-- JS `parseInt(s)` in base 10: an optional sign followed by leading
decimal digits; `none` models `NaN` (no leading digits at all).
(Leading whitespace, which `parseInt` would skip, is not modelled: no
call site produces it.) -/
def jsParseInt (s : String) : Option Int :=
  match s.data with
  | [] => none
  | c :: rest =>
    if c = '-' then (parseLeadDigits rest).map (fun v => -(v : Int))
    else if c = '+' then (parseLeadDigits rest).map (fun v => (v : Int))
    else (parseLeadDigits (c :: rest)).map (fun v => (v : Int))

/-- `editAgent(agentId)` on a successful fetch returning `a`: populates
the form from the record.  The source applies sequential assignments to
distinct fields, written here as one simultaneous update:
* name, type, description and the master checkbox are set unconditionally
  (`agent.description || ''` maps an absent or empty description to `''`);
* tools / sub-agents selections are rewritten only when the record carries
  the list (`if (agent.tools)`, `if (agent.sub_agents)`);
* LLM model and additional prompt only when truthy (`if (agent.llm_model)`,
  `if (agent.additional_prompt)`);
* timeout only when the number is truthy (`if (agent.timeout)`, so `0` is
  skipped);
* trust mode whenever the key is present (`!== undefined`).
Fields whose condition fails keep whatever the form held before.
(The fetch-failure path only logs and toasts and leaves the form alone.) -/
def editAgent (f : AgentForm) (a : Agent) : AgentForm :=
  { type_options := f.type_options
    name := a.name
    agent_type := setSelectValue f.type_options a.agent_type
    description := a.description.getD ""
    is_master := a.is_master
    tools :=
      match a.tools with
      | some ts => markSelected f.tools ts
      | none => f.tools
    sub_agents :=
      match a.sub_agents with
      | some ss => markSelected f.sub_agents ss
      | none => f.sub_agents
    llm_options := f.llm_options
    llm_model :=
      if jsTruthyStr a.llm_model then setSelectValue f.llm_options (a.llm_model.getD "")
      else f.llm_model
    additional_prompt :=
      if jsTruthyStr a.additional_prompt then a.additional_prompt.getD ""
      else f.additional_prompt
    timeout :=
      match a.timeout with
      | some n => if n ≠ 0 then jsNumToStr n else f.timeout
      | none => f.timeout
    trust_mode :=
      match a.trust_mode with
      | some b => b
      | none => f.trust_mode }

/-- The body `saveAgent()` sends.  `timeout` is
`timeout ? parseInt(timeout) : undefined`: outer `none` models the key
being `undefined` (blank field), `some none` models `NaN`, `some (some k)`
a parsed integer. -/
structure AgentPayload where
  name : String
  agent_type : String
  description : String
  is_master : Bool
  tools : List String
  sub_agents : List String
  llm_model : String
  additional_prompt : String
  timeout : Option (Option Int)
  trust_mode : Bool
deriving DecidableEq

/-- The payload assembly of `saveAgent()`: reads every form field and the
selected option values of the two multi-selects. -/
def saveAgentPayload (f : AgentForm) : AgentPayload :=
  { name := f.name
    agent_type := f.agent_type
    description := f.description
    is_master := f.is_master
    tools := selectedValues f.tools
    sub_agents := selectedValues f.sub_agents
    llm_model := f.llm_model
    additional_prompt := f.additional_prompt
    timeout := if f.timeout = "" then none else some (jsParseInt f.timeout)
    trust_mode := f.trust_mode }

/-- The dispatch-and-report part of `saveAgent()`: `PUT /agents/{id}` when
`editingAgentId` is set, else `POST /agents`; on success a success toast,
the modal closes and `loadAgents()` reloads the store; on failure the
wrapper's error toast is followed by the caller's own
`showToast('Error saving agent', 'error')` and the store is untouched. -/
def saveAgentRun (st : List Agent) (editingAgentId : Option String)
    (outcome : Except String Unit) (reloadOutcome : Except String (List Agent)) :
    List Ev × List Agent :=
  let path := match editingAgentId with
    | some i => "/agents/" ++ i
    | none => "/agents"
  let method := match editingAgentId with
    | some _ => "PUT"
    | none => "POST"
  let successMsg := match editingAgentId with
    | some _ => "Agent updated successfully"
    | none => "Agent created successfully"
  let (evs, res) := apiRequestRun method path outcome
  match res with
  | .ok _ =>
    let (evs2, st2) := loadAgentsRun st reloadOutcome
    (evs ++ [Ev.toast successMsg Severity.success] ++ evs2, st2)
  | .error _ => (evs ++ [Ev.toast "Error saving agent" Severity.error], st)

/-- `deleteAgent(agentId)`: nothing at all without the `confirm` step; then
`DELETE /agents/{id}`; on success a success toast and `loadAgents()`; on
failure the wrapper's error toast, the caller's
`showToast('Error deleting agent', 'error')`, and the store untouched. -/
def deleteAgentRun (st : List Agent) (agentId : String) (confirmed : Bool)
    (delOutcome : Except String Unit) (reloadOutcome : Except String (List Agent)) :
    List Ev × List Agent :=
  if confirmed then
    let (evs, res) := apiRequestRun "DELETE" ("/agents/" ++ agentId) delOutcome
    match res with
    | .ok _ =>
      let (evs2, st2) := loadAgentsRun st reloadOutcome
      (evs ++ [Ev.toast "Agent deleted successfully" Severity.success] ++ evs2, st2)
    | .error _ => (evs ++ [Ev.toast "Error deleting agent" Severity.error], st)
  else ([], st)

/-- `deleteTool(toolId)`, same shape as `deleteAgent`. -/
def deleteToolRun (st : List Tool) (toolId : String) (confirmed : Bool)
    (delOutcome : Except String Unit) (reloadOutcome : Except String (List Tool)) :
    List Ev × List Tool :=
  if confirmed then
    let (evs, res) := apiRequestRun "DELETE" ("/tools/" ++ toolId) delOutcome
    match res with
    | .ok _ =>
      let (evs2, st2) := loadToolsRun st reloadOutcome
      (evs ++ [Ev.toast "Tool deleted successfully" Severity.success] ++ evs2, st2)
    | .error _ => (evs ++ [Ev.toast "Error deleting tool" Severity.error], st)
  else ([], st)

/-! ## Action dispatcher: run / test / validate -/

/-- `runWorkflow(workflowId)`: prompts for input (`none` models a
cancelled prompt); a falsy (empty) input does nothing; otherwise
`JSON.parse` is attempted inside an inner try.  A parse failure alerts
`'Invalid JSON input. Please enter valid JSON.'` and issues no network
call.  Only a successful parse reaches `apiRequest`; note the inner catch
also swallows an API failure (after the wrapper's toast) and shows the
same invalid-input alert.  The parsed value and the result body are
never inspected beyond display, so the parser is abstracted as
`parse : String → Option J` and a successful result as its displayed
string. -/
def runWorkflowRun {J : Type} (workflowId : String) (input : Option String)
    (parse : String → Option J) (outcome : Except String String) : List Ev :=
  match input with
  | none => []
  | some s =>
    if s = "" then []
    else
      match parse s with
      | none => [Ev.alertBox "Invalid JSON input. Please enter valid JSON."]
      | some _ =>
        let (evs, res) := apiRequestRun "POST" ("/workflows/" ++ workflowId ++ "/run") outcome
        match res with
        | .ok out => evs ++ [Ev.alertBox ("Run Result: " ++ out)]
        | .error _ => evs ++ [Ev.alertBox "Invalid JSON input. Please enter valid JSON."]

/-- `testTool(toolId)`, same shape as `runWorkflow`. -/
def testToolRun {J : Type} (toolId : String) (input : Option String)
    (parse : String → Option J) (outcome : Except String String) : List Ev :=
  match input with
  | none => []
  | some s =>
    if s = "" then []
    else
      match parse s with
      | none => [Ev.alertBox "Invalid JSON input. Please enter valid JSON."]
      | some _ =>
        let (evs, res) := apiRequestRun "POST" ("/tools/" ++ toolId ++ "/test") outcome
        match res with
        | .ok out => evs ++ [Ev.alertBox ("Test Result: " ++ out)]
        | .error _ => evs ++ [Ev.alertBox "Invalid JSON input. Please enter valid JSON."]

/-- The body the validation endpoint returns. -/
structure ValidationResult where
  is_valid : Bool
  messages : List String
deriving DecidableEq

/-- `validateWorkflow(workflowId)`: `POST /workflows/{id}/validate`; a true
validity flag toasts `'Workflow is valid'` with severity success, a false
one toasts `'Workflow validation failed: '` followed by
`messages.join(', ')` with severity error; an API failure adds the
caller's own error toast after the wrapper's. -/
def validateWorkflowRun (workflowId : String)
    (outcome : Except String ValidationResult) : List Ev :=
  let (evs, res) := apiRequestRun "POST" ("/workflows/" ++ workflowId ++ "/validate") outcome
  match res with
  | .ok v =>
    if v.is_valid then evs ++ [Ev.toast "Workflow is valid" Severity.success]
    else evs ++ [Ev.toast ("Workflow validation failed: " ++ String.intercalate ", " v.messages)
                   Severity.error]
  | .error _ => evs ++ [Ev.toast "Error validating workflow" Severity.error]

/-! ## System configuration -/

/-- One LLM configuration.  Parameter maps are carried opaquely as
key/value string pairs: the management code never inspects them, only
passes them through whole. -/
structure LlmConfig where
  name : String
  api_key : String
  base_url : String
  model_name : String
  default_params : List (String × String)
deriving DecidableEq

/-- One database configuration; the nested config map is carried opaquely. -/
structure DbConfig where
  type : String
  connection_string : String
  config : List (String × String)
deriving DecidableEq

/-- The singleton system configuration, mutated in place and pushed whole
on every save. -/
structure SystemConfig where
  llm_configs : List LlmConfig
  database_configs : List DbConfig
  log_level : String
  cache_dir : String
  additional_config : List (String × String)
deriving DecidableEq

/-- The demonstration configuration `loadSystemConfig` substitutes in its
catch block. -/
def mockSystemConfig : SystemConfig :=
  { llm_configs :=
      [ { name := "default_llm", api_key := "***"
          base_url := "https://api.example.com", model_name := "example-model"
          default_params := [("temperature", "0.7"), ("max_tokens", "1000")] } ]
    database_configs :=
      [ { type := "elasticsearch", connection_string := "http://localhost:9200"
          config := [("index_prefix", "oxygent_")] } ]
    log_level := "INFO"
    cache_dir := "/tmp/oxygent_cache"
    additional_config := [("web_service_port", "8000"), ("enable_monitoring", "true")] }

/-- `loadSystemConfig()`: replace on success, demonstration config on
failure (prior contents never consulted). -/
def loadSystemConfigRun (cfg : SystemConfig) (outcome : Except String SystemConfig) :
    List Ev × SystemConfig :=
  let (evs, res) := apiRequestRun "GET" "/system/config" outcome
  match res with
  | .ok c => (evs, c)
  | .error _ => (evs, mockSystemConfig)

/-- Result of one configuration operation: the events, the body of the
`PUT` if one was issued, and the in-memory `systemConfig` afterwards. -/
structure ConfigStep where
  events : List Ev
  putBody : Option SystemConfig
  config : SystemConfig
deriving DecidableEq

/-- `updateSystemConfig()` applied to the already-mutated in-memory
config: `PUT /system/config` with that config as body; on success a
toast and `loadSystemConfig()`; on failure the wrapper's toast plus the
caller's, the mutated config kept as is (no rollback). -/
def updateSystemConfigRun (cfg : SystemConfig) (putOutcome : Except String Unit)
    (reloadOutcome : Except String SystemConfig) : ConfigStep :=
  let (evs, res) := apiRequestRun "PUT" "/system/config" putOutcome
  match res with
  | .ok _ =>
    let (evs2, cfg2) := loadSystemConfigRun cfg reloadOutcome
    { events := evs ++ [Ev.toast "Configuration updated successfully" Severity.success] ++ evs2
      putBody := some cfg
      config := cfg2 }
  | .error _ =>
    { events := evs ++ [Ev.toast "Error updating configuration" Severity.error]
      putBody := some cfg
      config := cfg }

/-- `saveGeneralSettings()`: writes the form's log level and cache
directory into `systemConfig` first, then `PUT`s the whole object; on
failure the mutation is kept (no rollback). -/
def saveGeneralSettingsRun (cfg : SystemConfig) (logLevel cacheDir : String)
    (putOutcome : Except String Unit) : ConfigStep :=
  let cfg2 := { cfg with log_level := logLevel, cache_dir := cacheDir }
  let (evs, res) := apiRequestRun "PUT" "/system/config" putOutcome
  match res with
  | .ok _ =>
    { events := evs ++ [Ev.toast "Settings saved successfully" Severity.success]
      putBody := some cfg2
      config := cfg2 }
  | .error _ =>
    { events := evs ++ [Ev.toast "Error saving settings" Severity.error]
      putBody := some cfg2
      config := cfg2 }

/-- `deleteLlm(index)`: after confirmation, `splice(index, 1)` on the
in-memory list (a no-op when the index is out of range, like `splice`),
then `updateSystemConfig()`. -/
def deleteLlmRun (cfg : SystemConfig) (index : Nat) (confirmed : Bool)
    (putOutcome : Except String Unit) (reloadOutcome : Except String SystemConfig) :
    ConfigStep :=
  if confirmed then
    updateSystemConfigRun { cfg with llm_configs := cfg.llm_configs.eraseIdx index }
      putOutcome reloadOutcome
  else { events := [], putBody := none, config := cfg }

/-- `deleteDatabase(index)`, same shape as `deleteLlm`. -/
def deleteDatabaseRun (cfg : SystemConfig) (index : Nat) (confirmed : Bool)
    (putOutcome : Except String Unit) (reloadOutcome : Except String SystemConfig) :
    ConfigStep :=
  if confirmed then
    updateSystemConfigRun { cfg with database_configs := cfg.database_configs.eraseIdx index }
      putOutcome reloadOutcome
  else { events := [], putBody := none, config := cfg }

/-- Number of error-severity toasts in a trace. -/
def errorToastCount (evs : List Ev) : Nat :=
  (evs.filter (fun e =>
    match e with
    | Ev.toast _ Severity.error => true
    | _ => false)).length

/-- Whether an event is an outbound network call. -/
def isNet (e : Ev) : Bool :=
  match e with
  | Ev.net _ _ => true
  | _ => false

/-! ## Helper lemmas -/

lemma isDigit_digitChar {d : Nat} (h : d < 10) : (Nat.digitChar d).isDigit = true := by
  interval_cases d <;> decide

lemma digitVal_digitChar {d : Nat} (h : d < 10) : digitVal (Nat.digitChar d) = d := by
  interval_cases d <;> decide

lemma not_sign_of_isDigit {c : Char} (h : c.isDigit = true) : c ≠ '-' ∧ c ≠ '+' := by
  constructor <;> rintro rfl <;> exact absurd h (by decide)

lemma decodeDigits_reverse_map (ds : List Nat) (h : ∀ d ∈ ds, d < 10) :
    decodeDigits (ds.reverse.map Nat.digitChar) = Nat.ofDigits 10 ds := by
  induction ds with
  | nil => rfl
  | cons d ds ih =>
    have hd : d < 10 := h d (List.mem_cons_self d ds)
    have hds : ∀ x ∈ ds, x < 10 := fun x hx => h x (List.mem_cons_of_mem _ hx)
    simp only [List.reverse_cons, List.map_append, List.map_cons, List.map_nil]
    rw [decodeDigits, List.foldl_append]
    simp only [List.foldl_cons, List.foldl_nil]
    rw [← decodeDigits, ih hds, digitVal_digitChar hd, Nat.ofDigits_cons]
    ring

lemma jsNumToStr_ne_empty (n : Nat) : jsNumToStr n ≠ "" := by
  by_cases h0 : n = 0
  · subst h0; decide
  · rw [jsNumToStr, if_neg h0]
    intro h
    have hdata : (Nat.digits 10 n).reverse.map Nat.digitChar = [] := congrArg String.data h
    simp [Nat.digits_ne_nil_iff_ne_zero.mpr h0] at hdata

lemma jsParseInt_jsNumToStr (n : Nat) : jsParseInt (jsNumToStr n) = some (n : Int) := by
  by_cases h0 : n = 0
  · subst h0; decide
  · have hdig : ∀ c ∈ (Nat.digits 10 n).reverse.map Nat.digitChar, c.isDigit = true := by
      intro c hc
      rw [List.mem_map] at hc
      obtain ⟨d, hd, rfl⟩ := hc
      exact isDigit_digitChar (Nat.digits_lt_base (by norm_num) (List.mem_reverse.mp hd))
    have hne : (Nat.digits 10 n).reverse.map Nat.digitChar ≠ [] := by
      simp [Nat.digits_ne_nil_iff_ne_zero.mpr h0]
    obtain ⟨c, cs, hcons⟩ := List.exists_cons_of_ne_nil hne
    have hstr : jsNumToStr n = ⟨c :: cs⟩ := by rw [jsNumToStr, if_neg h0, hcons]
    have hcd : c.isDigit = true := hdig c (by rw [hcons]; exact List.mem_cons_self c cs)
    have hsign := not_sign_of_isDigit hcd
    have hall : ∀ x ∈ c :: cs, Char.isDigit x = true := by rw [← hcons]; exact hdig
    have htake : (c :: cs).takeWhile Char.isDigit = c :: cs :=
      List.takeWhile_eq_self_iff.mpr hall
    have hdec : decodeDigits (c :: cs) = n := by
      rw [← hcons, decodeDigits_reverse_map _
        (fun d hd => Nat.digits_lt_base (by norm_num) hd), Nat.ofDigits_digits]
    rw [hstr]
    show (if c = '-' then (parseLeadDigits cs).map (fun v => -(v : Int))
      else if c = '+' then (parseLeadDigits cs).map (fun v => (v : Int))
      else (parseLeadDigits (c :: cs)).map (fun v => (v : Int))) = some (n : Int)
    rw [if_neg hsign.1, if_neg hsign.2, parseLeadDigits, htake,
      if_neg (List.cons_ne_nil c cs), hdec]
    rfl

lemma selectedValues_map_pred (l : List String) (p : String → Bool) :
    selectedValues (l.map fun v => (v, p v)) = l.filter p := by
  induction l with
  | nil => rfl
  | cons x xs ih =>
    by_cases hx : p x <;> simp [selectedValues, List.filter_cons, hx] at ih ⊢ <;>
      simpa [selectedValues] using ih

lemma markSelected_map_false (l : List String) (ids : List String) :
    markSelected (l.map fun v => (v, false)) ids = l.map fun v => (v, ids.contains v) := by
  simp [markSelected, List.map_map, Function.comp]

lemma markSelected_eq_of_fst {l l' : List (String × Bool)} (ids : List String)
    (h : l.map Prod.fst = l'.map Prod.fst) : markSelected l ids = markSelected l' ids := by
  have hm : ∀ t : List (String × Bool),
      markSelected t ids = (t.map Prod.fst).map fun v => (v, ids.contains v) := by
    intro t; simp [markSelected, List.map_map, Function.comp]
  rw [hm, hm, h]

lemma timeout_roundtrip (n : Nat) :
    (if (if n ≠ 0 then jsNumToStr n else "") = "" then none
     else some (jsParseInt (if n ≠ 0 then jsNumToStr n else ""))) =
      (if n ≠ 0 then some (some (n : Int)) else none) := by
  by_cases hn : n = 0
  · simp [hn]
  · simp [hn, jsNumToStr_ne_empty n, jsParseInt_jsNumToStr n]

lemma timeout_roundtrip_nf (n : Nat) :
    (if ¬n = 0 → jsNumToStr n = "" then none
     else some (jsParseInt (if n = 0 then "" else jsNumToStr n))) =
      (if n = 0 then none else some (some (n : Int))) := by
  by_cases hn : n = 0
  · simp [hn]
  · simp [hn, jsNumToStr_ne_empty n, jsParseInt_jsNumToStr n]

lemma prompt_field (o : Option String) :
    (if jsTruthyStr o then o.getD "" else "") = o.getD "" := by
  cases o with
  | none => rfl
  | some p => by_cases hp : p = "" <;> simp [jsTruthyStr, hp]

lemma jsTruthyStr_some_ne {m : String} (h : m ≠ "") : jsTruthyStr (some m) = true := by
  simp [jsTruthyStr, h]

lemma selectedValues_map_const_false (l : List String) :
    selectedValues (l.map fun v => (v, false)) = [] := by
  simpa using selectedValues_map_pred l (fun _ => false)

/-! ## Concrete records used by counterexamples and witnesses -/

/-- An agent as a successful `/agents` load would return it. -/
def serverAgent : Agent :=
  { id := "7", name := "real_agent", agent_type := "react"
    description := some "loaded from the backend"
    is_master := false, tools := none, sub_agents := none, llm_model := none
    additional_prompt := none, timeout := none, trust_mode := none
    status := "active" }

/-- Result of the load that started first in the overlapping-load trace. -/
def firstStartedAgent : Agent :=
  { serverAgent with id := "10", name := "first_started_result" }

/-- Result of the load that started second in the overlapping-load trace. -/
def secondStartedAgent : Agent :=
  { serverAgent with id := "11", name := "second_started_result" }

/-- The static page state of the agent modal before any load: the type
select carries the managed agent types, every other field blank. -/
def blankForm : AgentForm :=
  { type_options := ["react", "chat", "workflow", "local", "parallel", "remote", "sse"]
    name := "", agent_type := "react", description := "", is_master := false
    tools := [], sub_agents := [], llm_options := [], llm_model := ""
    additional_prompt := "", timeout := "", trust_mode := false }

/-- The record used by the round-trip counterexample: its sub-agents are
listed in the order `["2", "1"]`, the reverse of the option list order. -/
def roundTripAgent : Agent :=
  { id := "9", name := "router_agent", agent_type := "react"
    description := some "routes requests", is_master := false
    tools := some ["1"], sub_agents := some ["2", "1"]
    llm_model := some "default_llm", additional_prompt := some "be brief"
    timeout := none, trust_mode := some true, status := "active" }

/-- The agent modal opened for create with tools `1..3`, sub-agent
candidates `1..3` and one LLM configuration loaded. -/
def roundTripForm : AgentForm :=
  openAgentModal blankForm ["1", "2", "3"] ["1", "2", "3"] ["default_llm"]

/-- A record whose optional attributes are all present and truthy. -/
def fullAgent : Agent :=
  { id := "9", name := "full_agent", agent_type := "chat"
    description := some "complete record", is_master := true
    tools := some ["1"], sub_agents := some ["1"], llm_model := some "default_llm"
    additional_prompt := some "prompt", timeout := some 30, trust_mode := some false
    status := "active" }

/-- A form still holding a previous session's unsaved edits. -/
def staleForm : AgentForm :=
  { blankForm with
    name := "half-typed name"
    description := "unsaved text"
    timeout := "999"
    tools := [("1", true)]
    sub_agents := [("1", false)]
    llm_options := ["default_llm"]
    llm_model := "default_llm" }

/-- The same form as `staleForm` but freshly cleared. -/
def freshForm : AgentForm :=
  { blankForm with
    tools := [("1", false)]
    sub_agents := [("1", false)]
    llm_options := ["default_llm"] }

/-- A record that carries no timeout attribute. -/
def noTimeoutAgent : Agent :=
  { id := "12", name := "quick_agent", agent_type := "react"
    description := some "no timeout configured", is_master := false
    tools := some ["1"], sub_agents := some ["1"], llm_model := some "default_llm"
    additional_prompt := some "p", timeout := none, trust_mode := some true
    status := "active" }

/-! ## Claim theorems -/

/-- Claim C1, counterexample.  After a successful load has stored a real
collection, a later failing load does not keep that data: `loadAgents`'s
catch block unconditionally replaces the collection with the fixed
demonstration dataset, so the fallback is not limited to the very first
load of a session. -/
theorem loadFailure_replaces_loaded_data :
    (loadAgentsRun [] (.ok [serverAgent])).2 = [serverAgent]
    ∧ (loadAgentsRun [serverAgent] (.error "API request failed")).2 = mockAgents
    ∧ mockAgents ≠ [serverAgent]
    ∧ [serverAgent] ≠ ([] : List Agent) := by
  exact ⟨rfl, rfl, by decide, by decide⟩

/-- Claim C1, amended.  Every load failure — first or not — replaces the
stored collection with the fixed demonstration dataset, for agents and
tools alike; the underlying failure is still surfaced to the Notification
Center as the request wrapper's error toast. -/
theorem loadFailure_always_falls_back_to_mock :
    ∀ (st : List Agent) (ts : List Tool) (m : String),
      loadAgentsRun st (.error m) =
        ([Ev.net "GET" "/agents", Ev.toast m Severity.error], mockAgents)
      ∧ loadToolsRun ts (.error m) =
        ([Ev.net "GET" "/tools", Ev.toast m Severity.error], mockTools) :=
  fun _ _ _ => ⟨rfl, rfl⟩

/-- Claim C5, counterexample.  Call 0 started first, call 1 (the most
recently started) started second; call 1 resolved first with
`[secondStartedAgent]`, then the stale call 0 resolved with
`[firstStartedAgent]` and overwrote it.  The store ends at the
earlier-started call's result, not the most recently started call's. -/
theorem stale_load_overwrites_newer :
    runLoadResolutions []
        [(1, .ok [secondStartedAgent]), (0, .ok [firstStartedAgent])] =
      [firstStartedAgent]
    ∧ [firstStartedAgent] ≠ [secondStartedAgent] := by
  exact ⟨rfl, by decide⟩

/-- Claim C5, amended.  Since each `loadAgents` call assigns the global
collection when its own response resolves, and the assignment ignores the
previous contents, the store ends at the result of whichever call
resolves last — last-resolution-wins, regardless of start order. -/
theorem load_last_resolution_wins :
    ∀ (init : List Agent) (rs : List (Nat × Except String (List Agent)))
      (i : Nat) (r : Except String (List Agent)),
      runLoadResolutions init (rs ++ [(i, r)]) = (loadAgentsRun init r).2
      ∧ ∀ (st st' : List Agent), (loadAgentsRun st r).2 = (loadAgentsRun st' r).2 := by
  intro init rs i r
  have hconst : ∀ (st st' : List Agent), (loadAgentsRun st r).2 = (loadAgentsRun st' r).2 := by
    intro st st'; cases r <;> rfl
  refine ⟨?_, hconst⟩
  rw [runLoadResolutions, List.foldl_append]
  simp only [List.foldl_cons, List.foldl_nil]
  exact hconst _ _

/-- Claim C6, confirmed.  For agents and tools alike, the filtered list is
a sublist (hence subset) of the stored collection, and membership holds
exactly when the record passes both the case-insensitive substring match
over name/description and the type restriction (empty filter matches
all), ANDed; a record failing either predicate is excluded. -/
theorem filter_subset_and_predicate :
    ∀ (l : List Agent) (tl : List Tool) (searchInput typeFilter : String),
      (filterAgents l searchInput typeFilter).Sublist l
      ∧ (∀ a, a ∈ filterAgents l searchInput typeFilter ↔
          a ∈ l ∧ agentMatches a searchInput typeFilter = true)
      ∧ (filterTools tl searchInput typeFilter).Sublist tl
      ∧ (∀ t, t ∈ filterTools tl searchInput typeFilter ↔
          t ∈ tl ∧ toolMatches t searchInput typeFilter = true) := by
  intro l tl si tf
  refine ⟨List.filter_sublist l, fun a => ?_, List.filter_sublist tl, fun t => ?_⟩
  · simp [filterAgents, List.mem_filter]
  · simp [filterTools, List.mem_filter]

/-- Claim C7, confirmed.  Without the confirmation step nothing happens at
all (no network call, store untouched); a failing `DELETE` leaves the
collection exactly as it was, with no reload call issued; only a
successful `DELETE` produces the success notification, the reload call
and the reloaded collection.  Both for agents and for tools. -/
theorem delete_confirm_and_frame :
    (∀ (st : List Agent) (agentId : String) (d : Except String Unit)
       (r : Except String (List Agent)),
       deleteAgentRun st agentId false d r = ([], st))
    ∧ (∀ (st : List Agent) (agentId m : String) (r : Except String (List Agent)),
       deleteAgentRun st agentId true (.error m) r =
         ([Ev.net "DELETE" ("/agents/" ++ agentId), Ev.toast m Severity.error,
           Ev.toast "Error deleting agent" Severity.error], st))
    ∧ (∀ (st : List Agent) (agentId : String) (l : List Agent),
       deleteAgentRun st agentId true (.ok ()) (.ok l) =
         ([Ev.net "DELETE" ("/agents/" ++ agentId),
           Ev.toast "Agent deleted successfully" Severity.success,
           Ev.net "GET" "/agents"], l))
    ∧ (∀ (st : List Tool) (toolId : String) (d : Except String Unit)
       (r : Except String (List Tool)),
       deleteToolRun st toolId false d r = ([], st))
    ∧ (∀ (st : List Tool) (toolId m : String) (r : Except String (List Tool)),
       deleteToolRun st toolId true (.error m) r =
         ([Ev.net "DELETE" ("/tools/" ++ toolId), Ev.toast m Severity.error,
           Ev.toast "Error deleting tool" Severity.error], st))
    ∧ (∀ (st : List Tool) (toolId : String) (l : List Tool),
       deleteToolRun st toolId true (.ok ()) (.ok l) =
         ([Ev.net "DELETE" ("/tools/" ++ toolId),
           Ev.toast "Tool deleted successfully" Severity.success,
           Ev.net "GET" "/tools"], l)) := by
  exact ⟨fun _ _ _ _ => rfl, fun _ _ _ _ => rfl, fun _ _ _ => rfl,
    fun _ _ _ _ => rfl, fun _ _ _ _ => rfl, fun _ _ _ => rfl⟩

/-- Claim C9, confirmed.  A false validity flag produces an error toast
whose text is the fixed prefix followed by the returned messages joined
with a comma; the given scenario yields exactly
`"Workflow validation failed: missing tool"`; a true flag produces the
success toast. -/
theorem validate_toast_texts :
    (∀ (workflowId : String) (msgs : List String),
       validateWorkflowRun workflowId (.ok { is_valid := false, messages := msgs }) =
         [Ev.net "POST" ("/workflows/" ++ workflowId ++ "/validate"),
          Ev.toast ("Workflow validation failed: " ++ String.intercalate ", " msgs)
            Severity.error])
    ∧ (∀ (workflowId : String) (msgs : List String),
       validateWorkflowRun workflowId (.ok { is_valid := true, messages := msgs }) =
         [Ev.net "POST" ("/workflows/" ++ workflowId ++ "/validate"),
          Ev.toast "Workflow is valid" Severity.success])
    ∧ validateWorkflowRun "w1" (.ok { is_valid := false, messages := ["missing tool"] }) =
        [Ev.net "POST" "/workflows/w1/validate",
         Ev.toast "Workflow validation failed: missing tool" Severity.error] := by
  exact ⟨fun _ _ => rfl, fun _ _ => rfl, by decide⟩

/-- Claim C4, counterexample.  A single failed save produces two
error-severity notifications, not one: the wrapper's
`showToast(error.message, 'error')` and the caller's own
`showToast('Error saving agent', 'error')` in `saveAgent`'s catch block.
So it is not the case that no caller re-announces the failure. -/
theorem failed_save_emits_two_error_toasts :
    errorToastCount
        (saveAgentRun [] (some "1") (.error "API request failed") (.ok [])).1 = 2
    ∧ errorToastCount
        (saveAgentRun [] (some "1") (.error "API request failed") (.ok [])).1 ≠ 1 := by
  exact ⟨rfl, by decide⟩

/-- Claim C4, amended.  The request wrapper reports every failure to the
Notification Center with severity error exactly once at the point of
failure and re-raises it; but callers add their own error notification on
top, so one failed save or delete yields exactly two error toasts — the
wrapper's (with the derived message) followed by the caller's generic
one. -/
theorem apiFailure_wrapper_once_callers_reannounce :
    (∀ (α : Type) (method path m : String),
       apiRequestRun (α := α) method path (.error m) =
         ([Ev.net method path, Ev.toast m Severity.error], .error m))
    ∧ (∀ (α : Type) (method path : String) (x : α),
       apiRequestRun method path (.ok x) = ([Ev.net method path], .ok x))
    ∧ (∀ (st : List Agent) (editingAgentId : Option String) (m : String)
       (r : Except String (List Agent)),
       errorToastCount (saveAgentRun st editingAgentId (.error m) r).1 = 2)
    ∧ (∀ (st : List Agent) (agentId m : String) (r : Except String (List Agent)),
       errorToastCount (deleteAgentRun st agentId true (.error m) r).1 = 2) := by
  refine ⟨fun _ _ _ _ => rfl, fun _ _ _ _ => rfl, fun st eid m r => ?_, fun _ _ _ _ => rfl⟩
  cases eid <;> rfl

/-- Claim C8, confirmed.  A non-empty input that fails to parse as JSON is
rejected locally: the trace is exactly the inline invalid-input alert —
no network call and no backend-failure toast — both for workflow run and
for tool test; and the request is dispatched (a network call appears)
exactly when the input parses. -/
theorem malformed_json_rejected_locally :
    ∀ (J : Type) (parse : String → Option J) (workflowId toolId s : String)
      (o : Except String String),
      s ≠ "" → parse s = none →
      runWorkflowRun workflowId (some s) parse o =
        [Ev.alertBox "Invalid JSON input. Please enter valid JSON."]
      ∧ testToolRun toolId (some s) parse o =
        [Ev.alertBox "Invalid JSON input. Please enter valid JSON."]
      ∧ (∀ e ∈ runWorkflowRun workflowId (some s) parse o, isNet e = false)
      ∧ (∀ (s' : String) (j : J), parse s' = some j → s' ≠ "" →
          Ev.net "POST" ("/workflows/" ++ workflowId ++ "/run") ∈
            runWorkflowRun workflowId (some s') parse o) := by
  intro J parse workflowId toolId s o hs hp
  refine ⟨?_, ?_, ?_, ?_⟩
  · simp [runWorkflowRun, hs, hp]
  · simp [testToolRun, hs, hp]
  · intro e he
    simp [runWorkflowRun, hs, hp] at he
    simp [he, isNet]
  · intro s' j hj hs'
    cases o <;> simp [runWorkflowRun, hs', hj, apiRequestRun]

/-- Claim C8, witness: the literal scenario — input `not-json`, a parser
that rejects it — produces only the local invalid-input alert. -/
theorem malformed_json_witness :
    runWorkflowRun "w1" (some "not-json") (fun _ => (none : Option Unit))
        (.error "backend unreachable") =
      [Ev.alertBox "Invalid JSON input. Please enter valid JSON."] :=
  (malformed_json_rejected_locally Unit (fun _ => none) "w1" "t1" "not-json"
    (.error "backend unreachable") (by decide) rfl).1

/-- Claim C10, confirmed.  Saving general settings and deleting an LLM or
database configuration all mutate the in-memory `systemConfig` first and
send the mutated object as the `PUT` body; when the `PUT` fails the
mutation is kept, so the local configuration then differs from what the
server still holds (the pre-mutation state). -/
theorem config_mutation_before_put :
    (∀ (cfg : SystemConfig) (logLevel cacheDir m : String),
       (saveGeneralSettingsRun cfg logLevel cacheDir (.error m)).putBody =
         some { cfg with log_level := logLevel, cache_dir := cacheDir }
       ∧ (saveGeneralSettingsRun cfg logLevel cacheDir (.error m)).config =
         { cfg with log_level := logLevel, cache_dir := cacheDir })
    ∧ (∀ (cfg : SystemConfig) (logLevel cacheDir m : String),
       logLevel ≠ cfg.log_level →
       (saveGeneralSettingsRun cfg logLevel cacheDir (.error m)).config ≠ cfg)
    ∧ (∀ (cfg : SystemConfig) (i : Nat) (m : String) (r : Except String SystemConfig),
       (deleteLlmRun cfg i true (.error m) r).putBody =
         some { cfg with llm_configs := cfg.llm_configs.eraseIdx i }
       ∧ (deleteLlmRun cfg i true (.error m) r).config =
         { cfg with llm_configs := cfg.llm_configs.eraseIdx i })
    ∧ (∀ (cfg : SystemConfig) (i : Nat) (m : String) (r : Except String SystemConfig),
       i < cfg.llm_configs.length →
       (deleteLlmRun cfg i true (.error m) r).config ≠ cfg)
    ∧ (∀ (cfg : SystemConfig) (i : Nat) (m : String) (r : Except String SystemConfig),
       (deleteDatabaseRun cfg i true (.error m) r).putBody =
         some { cfg with database_configs := cfg.database_configs.eraseIdx i }
       ∧ (deleteDatabaseRun cfg i true (.error m) r).config =
         { cfg with database_configs := cfg.database_configs.eraseIdx i })
    ∧ (∀ (cfg : SystemConfig) (i : Nat) (m : String) (r : Except String SystemConfig),
       i < cfg.database_configs.length →
       (deleteDatabaseRun cfg i true (.error m) r).config ≠ cfg) := by
  refine ⟨fun _ _ _ _ => ⟨rfl, rfl⟩, ?_, fun _ _ _ _ => ⟨rfl, rfl⟩, ?_,
    fun _ _ _ _ => ⟨rfl, rfl⟩, ?_⟩
  · intro cfg logLevel cacheDir m hne heq
    exact hne (congrArg SystemConfig.log_level heq)
  · intro cfg i m r hi heq
    have hcfg : (deleteLlmRun cfg i true (.error m) r).config =
        { cfg with llm_configs := cfg.llm_configs.eraseIdx i } := rfl
    rw [hcfg] at heq
    have h3 : cfg.llm_configs.eraseIdx i = cfg.llm_configs :=
      congrArg SystemConfig.llm_configs heq
    have hlen := congrArg List.length h3
    have := List.length_eraseIdx_add_one hi
    omega
  · intro cfg i m r hi heq
    have hcfg : (deleteDatabaseRun cfg i true (.error m) r).config =
        { cfg with database_configs := cfg.database_configs.eraseIdx i } := rfl
    rw [hcfg] at heq
    have h3 : cfg.database_configs.eraseIdx i = cfg.database_configs :=
      congrArg SystemConfig.database_configs heq
    have hlen := congrArg List.length h3
    have := List.length_eraseIdx_add_one hi
    omega

/-- Claim C10, witness: with the demonstration configuration, a failed
settings save keeps the changed log level locally, and a failed LLM
delete keeps the shortened list locally. -/
theorem config_mutation_witness :
    (saveGeneralSettingsRun mockSystemConfig "DEBUG" "/tmp/oxygent_cache"
        (.error "API request failed")).config ≠ mockSystemConfig
    ∧ (deleteLlmRun mockSystemConfig 0 true (.error "API request failed")
        (.ok mockSystemConfig)).config ≠ mockSystemConfig := by
  exact ⟨config_mutation_before_put.2.1 mockSystemConfig "DEBUG" "/tmp/oxygent_cache"
      "API request failed" (by decide),
    config_mutation_before_put.2.2.2.1 mockSystemConfig 0 "API request failed"
      (.ok mockSystemConfig) (by decide)⟩

/-- Claim C2, counterexample.  Open-for-edit on `roundTripAgent` (whose
sub-agents are `["2", "1"]`) followed by an unchanged commit produces a
payload whose `sub_agents` are `["1", "2"]`: `selectedOptions` yields the
values in DOM option order, not in the record's order, so the `PUT`
payload does not equal the record's fields exactly. -/
theorem editSave_reorders_sub_agents :
    roundTripAgent.sub_agents = some ["2", "1"]
    ∧ (saveAgentPayload (editAgent roundTripForm roundTripAgent)).sub_agents = ["1", "2"]
    ∧ (saveAgentPayload (editAgent roundTripForm roundTripAgent)).sub_agents ≠ ["2", "1"] := by
  exact ⟨rfl, by decide, by decide⟩

/-- Claim C2, amended.  With the form freshly opened for create (so the
option lists are loaded and everything is cleared), open-for-edit on `a`
followed by an unchanged commit produces a payload equal to `a`'s fields
minus the server-only `id` and `status`, except that: the multi-valued
fields come back as the option list filtered to the record's members
(DOM option order, entries outside the option list dropped), absent
optional fields are serialized as empty strings / absent keys / `false`,
a zero timeout is dropped like an absent one, and the LLM model
round-trips only because it is nonempty and among the loaded options
(likewise the agent type must be among the type select's options). -/
theorem editSave_roundtrip_up_to_option_order
    (prev : AgentForm) (toolOpts subAgentOpts llmOpts : List String)
    (a : Agent) (m : String)
    (hm : a.llm_model = some m) (hm0 : m ≠ "")
    (hml : m ∈ llmOpts)
    (hty : a.agent_type ∈ prev.type_options) :
    saveAgentPayload (editAgent (openAgentModal prev toolOpts subAgentOpts llmOpts) a) =
      { name := a.name
        agent_type := a.agent_type
        description := a.description.getD ""
        is_master := a.is_master
        tools := match a.tools with
          | some ts => toolOpts.filter (fun v => ts.contains v)
          | none => []
        sub_agents := match a.sub_agents with
          | some ss => subAgentOpts.filter (fun v => ss.contains v)
          | none => []
        llm_model := m
        additional_prompt := a.additional_prompt.getD ""
        timeout := match a.timeout with
          | some n => if n ≠ 0 then some (some (n : Int)) else none
          | none => none
        trust_mode := a.trust_mode.getD false } := by
  obtain ⟨aid, an, aty, ad, aim, atl, asa, alm, aap, ati, atr, ast⟩ := a
  replace hm : alm = some m := hm
  subst hm
  replace hty : aty ∈ prev.type_options := hty
  cases atl <;> cases asa <;> cases ati <;> cases atr <;>
    simp [editAgent, openAgentModal, saveAgentPayload, setSelectValue,
      markSelected_map_false, selectedValues_map_pred, selectedValues_map_const_false,
      prompt_field, timeout_roundtrip, jsTruthyStr_some_ne hm0, hml, hty]
  all_goals exact timeout_roundtrip_nf _

/-- Claim C2, witness: a concrete unchanged commit whose payload the
amended statement pins down exactly. -/
theorem editSave_roundtrip_witness :
    saveAgentPayload (editAgent (openAgentModal blankForm ["1", "2", "3"] ["1", "2", "3"]
        ["default_llm"]) fullAgent) =
      { name := "full_agent", agent_type := "chat", description := "complete record"
        is_master := true, tools := ["1"], sub_agents := ["1"]
        llm_model := "default_llm", additional_prompt := "prompt"
        timeout := some (some 30), trust_mode := false } :=
  (editSave_roundtrip_up_to_option_order blankForm ["1", "2", "3"] ["1", "2", "3"]
    ["default_llm"] fullAgent "default_llm" rfl (by decide) (by decide)
    (by decide)).trans (by decide)

/-- Claim C3, counterexample.  `editAgent` populates the timeout field
only when the fetched record carries a truthy timeout and never resets
the form, so opening an edit session on `noTimeoutAgent` right after a
session in which the administrator typed `999` into the timeout field
leaves that previous session's value sitting in the form: the field is
not populated from the freshly fetched record. -/
theorem editAgent_retains_stale_timeout :
    noTimeoutAgent.timeout = none
    ∧ staleForm.timeout = "999"
    ∧ (editAgent staleForm noTimeoutAgent).timeout = "999"
    ∧ (editAgent staleForm noTimeoutAgent).timeout ≠ "" := by
  exact ⟨rfl, rfl, by decide, by decide⟩

/-- Claim C3, amended.  Open-for-create clears every form field regardless
of what the previous session left behind (the previous form contributes
only the static type options); open-for-edit overwrites every field —
making the new session independent of the previous one — only when the
fetched record carries all optional attributes truthy; fields whose
attribute is absent (or falsy: empty LLM model/prompt, zero timeout)
retain the previous session's values. -/
theorem session_open_discards_previous_edits :
    (∀ (f g : AgentForm) (toolOpts subAgentOpts llmOpts : List String),
       f.type_options = g.type_options →
       openAgentModal f toolOpts subAgentOpts llmOpts =
         openAgentModal g toolOpts subAgentOpts llmOpts)
    ∧ (∀ (f g : AgentForm) (a : Agent),
       f.type_options = g.type_options →
       f.llm_options = g.llm_options →
       f.tools.map Prod.fst = g.tools.map Prod.fst →
       f.sub_agents.map Prod.fst = g.sub_agents.map Prod.fst →
       (∃ ts, a.tools = some ts) →
       (∃ ss, a.sub_agents = some ss) →
       jsTruthyStr a.llm_model = true →
       jsTruthyStr a.additional_prompt = true →
       (∃ n, a.timeout = some n ∧ n ≠ 0) →
       (∃ b, a.trust_mode = some b) →
       editAgent f a = editAgent g a) := by
  constructor
  · intro f g toolOpts subAgentOpts llmOpts h
    simp [openAgentModal, h]
  · intro f g a h1 h2 h3 h4 htl hsa hlm hap hti htr
    obtain ⟨ts, hts⟩ := htl
    obtain ⟨ss, hss⟩ := hsa
    obtain ⟨n, hn, hn0⟩ := hti
    obtain ⟨b, hb⟩ := htr
    simp [editAgent, hts, hss, hn, hn0, hb, hlm, hap, h1, h2,
      markSelected_eq_of_fst ts h3, markSelected_eq_of_fst ss h4]

/-- Claim C3, witness: the stale form and a freshly cleared form agree
after open-for-edit on a record carrying every optional attribute. -/
theorem session_open_discards_witness :
    editAgent staleForm fullAgent = editAgent freshForm fullAgent :=
  session_open_discards_previous_edits.2 staleForm freshForm fullAgent rfl rfl rfl rfl
    ⟨["1"], rfl⟩ ⟨["1"], rfl⟩ (by decide) (by decide) ⟨30, rfl, by decide⟩ ⟨false, rfl⟩

end OxyGent
